import Mathlib

/-!
Shallow embedding of `src/financial_agent.py` (class `StockAnalysisApp`), a
Streamlit dashboard for LLM-assisted stock analysis.

The external collaborators (the remote assistant constructor and its `run`
method) are modelled as environment functions: `createAssistant` tells, for a
given API key, whether the `Assistant(...)` constructor succeeds (returning a
handle) or raises, and `assistantRunBehavior` tells, for a given query string,
whether `assistant.run(query)` returns text or raises.  Every call made to a
collaborator is recorded in a trace of `RemoteCall`s, so that "no external
call is made" is a statement about the trace.

`st.session_state` is modelled as a record whose fields are `Option`-wrapped:
`none` means the key is absent from the session state (Python attribute access
would raise), `some v` means the key is present with value `v`.  Uncaught
Python exceptions are modelled with `PyException` / `HandlerOutcome.raised` /
`RunResult.uncaught`.
-/

namespace FinancialAgent

/-- Opaque handle for a successfully constructed `phi.assistant.Assistant`. -/
structure Assistant where
  assistantId : Nat
deriving DecidableEq, Repr

/-- Outcome of the remote `Assistant(...)` constructor call for a given key. -/
inductive ConstructResult where
  | ok (a : Assistant)
  | raises
deriving DecidableEq, Repr

/-- Outcome of a remote `assistant.run(query, stream=False)` call. -/
inductive RunBehavior where
  | ok (text : String)
  | raises
deriving DecidableEq, Repr

/-- A call made to an external collaborator, recorded in the trace. -/
inductive RemoteCall where
  | construct (apiKey : String)
  | assistantRun (query : String)
deriving DecidableEq, Repr

/-- A Python exception escaping a handler uncaught. -/
inductive PyException where
  | attributeError
  | remoteError
deriving DecidableEq, Repr

/-- The per-user `st.session_state`.  `none` on a field means the key is
absent from the session state dictionary. -/
structure SessionState where
  api_key_verified : Option Bool
  assistant : Option (Option Assistant)
deriving DecidableEq, Repr

/-- Embeds `StockAnalysisApp.__init__` (src/financial_agent.py lines 9-17):
each session-state key is given its default only when absent. -/
def initStockAnalysisApp (s : SessionState) : SessionState :=
  let s1 := match s.api_key_verified with
    | none => { s with api_key_verified := some false }
    | some _ => s
  match s1.assistant with
  | none => { s1 with assistant := some none }
  | some _ => s1

/-- Result of `verify_api_key`: the returned boolean, the session state after
the call, and the trace of remote calls made. -/
structure VerifyOut where
  ret : Bool
  state : SessionState
  calls : List RemoteCall
deriving DecidableEq, Repr

/-- Embeds `StockAnalysisApp.verify_api_key` (src/financial_agent.py lines
27-50): always attempts the `Assistant(...)` construction; on success stores
the handle and sets the verified flag, returning `True`; on any exception sets
the verified flag to `False` and returns `False` (the `assistant` key is left
untouched in the except branch). -/
def verify_api_key (s : SessionState) (api_key : String)
    (createAssistant : String → ConstructResult) : VerifyOut :=
  match createAssistant api_key with
  | ConstructResult.ok a =>
      { ret := true
        state := { s with assistant := some (some a), api_key_verified := some true }
        calls := [RemoteCall.construct api_key] }
  | ConstructResult.raises =>
      { ret := false
        state := { s with api_key_verified := some false }
        calls := [RemoteCall.construct api_key] }

/-- The user-visible message produced by the sidebar form. -/
inductive SidebarMsg where
  | noMsg
  | successMsg
  | invalidKeyMsg
  | enterKeyMsg
deriving DecidableEq, Repr

/-- Result of `show_sidebar_form`: state after the form, trace, message. -/
structure SidebarOut where
  state : SessionState
  calls : List RemoteCall
  msg : SidebarMsg
deriving DecidableEq, Repr

/-- Embeds `StockAnalysisApp.show_sidebar_form` (src/financial_agent.py lines
52-83): when the form is submitted, a non-empty key (Python truthiness of the
string) is passed to `verify_api_key`, and an empty key produces the
"Please enter an API key." error without calling the verifier. -/
def show_sidebar_form (s : SessionState) (submitted : Bool) (api_key : String)
    (createAssistant : String → ConstructResult) : SidebarOut :=
  if submitted then
    if api_key ≠ "" then
      let v := verify_api_key s api_key createAssistant
      { state := v.state
        calls := v.calls
        msg := if v.ret then SidebarMsg.successMsg else SidebarMsg.invalidKeyMsg }
    else
      { state := s, calls := [], msg := SidebarMsg.enterKeyMsg }
  else
    { state := s, calls := [], msg := SidebarMsg.noMsg }

/-- Embeds `StockAnalysisApp.generate_query` (src/financial_agent.py lines
141-149): `queries.get(analysis_type, queries["Full Comparison"])`, a lookup
in the four-entry template dictionary with the Full Comparison template as the
default. -/
def generate_query (stock1 stock2 analysis_type : String) : String :=
  if analysis_type = "Full Comparison" then
    "Provide a comprehensive comparison between " ++ stock1 ++ " and " ++ stock2 ++
      " including price trends, fundamentals, and market sentiment."
  else if analysis_type = "Price Analysis" then
    "Compare price performance and technical indicators for " ++ stock1 ++ " and " ++ stock2 ++ "."
  else if analysis_type = "Fundamentals" then
    "Compare key fundamental metrics and financial health of " ++ stock1 ++ " and " ++ stock2 ++ "."
  else if analysis_type = "News" then
    "Compare recent news and market sentiment for " ++ stock1 ++ " and " ++ stock2 ++ "."
  else
    "Provide a comprehensive comparison between " ++ stock1 ++ " and " ++ stock2 ++
      " including price trends, fundamentals, and market sentiment."

/-- Embeds the f-string of src/financial_agent.py line 137:
`f"Analyze {stock} focusing on {', '.join(metrics)}"`. -/
def single_stock_query (stock : String) (metrics : List String) : String :=
  "Analyze " ++ stock ++ " focusing on " ++ String.intercalate ", " metrics

/-- What one analysis handler produced on this rendering pass. -/
inductive HandlerOutcome where
  | noAction
  | rendered (text : String)
  | raised (e : PyException)
deriving DecidableEq, Repr

/-- Result of an analysis handler: outcome plus trace of remote calls. -/
structure HandlerOut where
  outcome : HandlerOutcome
  calls : List RemoteCall
deriving DecidableEq, Repr

/-- Shared dispatch step of both handlers: the attribute access
`st.session_state.assistant.run(query, stream=False)`.  When the stored
assistant is `None` (or the key is absent) Python raises an `AttributeError`
before any remote call; otherwise the remote call is made and either returns
text or raises. -/
def dispatchAssistantRun (s : SessionState) (query : String)
    (assistantRunBehavior : String → RunBehavior) : HandlerOut :=
  match s.assistant with
  | some (some _) =>
      match assistantRunBehavior query with
      | RunBehavior.ok text =>
          { outcome := HandlerOutcome.rendered text, calls := [RemoteCall.assistantRun query] }
      | RunBehavior.raises =>
          { outcome := HandlerOutcome.raised PyException.remoteError
            calls := [RemoteCall.assistantRun query] }
  | some none =>
      { outcome := HandlerOutcome.raised PyException.attributeError, calls := [] }
  | none =>
      { outcome := HandlerOutcome.raised PyException.attributeError, calls := [] }

/-- Embeds `StockAnalysisApp.handle_stock_comparison` (src/financial_agent.py
lines 94-119): both symbol inputs non-empty (Python truthiness) and the
"Generate Analysis" button clicked lead to `generate_query` followed by
`st.session_state.assistant.run(query, stream=False)` with no try/except. -/
def handle_stock_comparison (s : SessionState) (stock1 stock2 analysis_type : String)
    (generateClicked : Bool) (assistantRunBehavior : String → RunBehavior) : HandlerOut :=
  if stock1 ≠ "" ∧ stock2 ≠ "" then
    if generateClicked then
      dispatchAssistantRun s (generate_query stock1 stock2 analysis_type) assistantRunBehavior
    else
      { outcome := HandlerOutcome.noAction, calls := [] }
  else
    { outcome := HandlerOutcome.noAction, calls := [] }

/-- Embeds `StockAnalysisApp.handle_single_stock` (src/financial_agent.py
lines 121-139): a non-empty symbol and the "Analyze" button clicked lead to
the f-string query followed by `st.session_state.assistant.run(query,
stream=False)` with no try/except. -/
def handle_single_stock (s : SessionState) (stock : String) (metrics : List String)
    (analyzeClicked : Bool) (assistantRunBehavior : String → RunBehavior) : HandlerOut :=
  if stock ≠ "" then
    if analyzeClicked then
      dispatchAssistantRun s (single_stock_query stock metrics) assistantRunBehavior
    else
      { outcome := HandlerOutcome.noAction, calls := [] }
  else
    { outcome := HandlerOutcome.noAction, calls := [] }

/-- The UI inputs that drive one rendering pass of the application. -/
structure RunInputs where
  submitted : Bool
  api_key : String
  stock1 : String
  stock2 : String
  analysis_type : String
  generateClicked : Bool
  stock : String
  metrics : List String
  analyzeClicked : Bool

/-- Behaviour of the external collaborators during one rendering pass. -/
structure Env where
  createAssistant : String → ConstructResult
  assistantRunBehavior : String → RunBehavior

/-- Overall outcome of one rendering pass of `run`. -/
inductive RunResult where
  | ok
  | uncaught (e : PyException)
deriving DecidableEq, Repr

/-- Embeds `StockAnalysisApp.show_main_content` (src/financial_agent.py lines
151-164): runs the comparison handler, then — unless it raised — the
single-stock handler; an exception raised by either handler escapes (there is
no try/except anywhere on this path). -/
def show_main_content (s : SessionState) (i : RunInputs) (env : Env) :
    RunResult × List RemoteCall :=
  let h1 := handle_stock_comparison s i.stock1 i.stock2 i.analysis_type
    i.generateClicked env.assistantRunBehavior
  match h1.outcome with
  | HandlerOutcome.raised e => (RunResult.uncaught e, h1.calls)
  | _ =>
      let h2 := handle_single_stock s i.stock i.metrics i.analyzeClicked
        env.assistantRunBehavior
      match h2.outcome with
      | HandlerOutcome.raised e => (RunResult.uncaught e, h1.calls ++ h2.calls)
      | _ => (RunResult.ok, h1.calls ++ h2.calls)

/-- Result of one rendering pass: outcome, final state, trace. -/
structure RunOut where
  result : RunResult
  state : SessionState
  calls : List RemoteCall
deriving Repr

/-- Embeds `StockAnalysisApp.run` (src/financial_agent.py lines 166-175):
shows the sidebar form, then shows the main content only when
`st.session_state.api_key_verified` is truthy, otherwise only a warning.
An absent `api_key_verified` key would raise an `AttributeError`. -/
def run (s : SessionState) (i : RunInputs) (env : Env) : RunOut :=
  let sb := show_sidebar_form s i.submitted i.api_key env.createAssistant
  match sb.state.api_key_verified with
  | some true =>
      let (r, calls2) := show_main_content sb.state i env
      { result := r, state := sb.state, calls := sb.calls ++ calls2 }
  | some false =>
      { result := RunResult.ok, state := sb.state, calls := sb.calls }
  | none =>
      { result := RunResult.uncaught PyException.attributeError
        state := sb.state, calls := sb.calls }

/-! ### Query Builder: the spec-side comma-join and its agreement with the code -/

/-- Written from the spec's words for `buildSingleStockQuery`: the selected
metric labels comma-joined in the order the caller supplies them (insertion
order, not sorted). -/
def commaJoined : List String → String
  | [] => ""
  | [x] => x
  | x :: y :: ys => x ++ ", " ++ commaJoined (y :: ys)

/-- Tail form of the comma-join, matching the accumulator of
`String.intercalate.go`. -/
def commaTail : List String → String
  | [] => ""
  | x :: xs => ", " ++ x ++ commaTail xs

theorem intercalate_go_eq_commaTail (l : List String) (acc : String) :
    String.intercalate.go acc ", " l = acc ++ commaTail l := by
  induction l generalizing acc with
  | nil => simp [String.intercalate.go, commaTail]
  | cons x xs ih => simp [String.intercalate.go, commaTail, ih, String.append_assoc]

theorem commaJoined_cons (x : String) (xs : List String) :
    commaJoined (x :: xs) = x ++ commaTail xs := by
  induction xs generalizing x with
  | nil => simp [commaJoined, commaTail]
  | cons y ys ih => simp [commaJoined, commaTail, ih, String.append_assoc]

theorem intercalate_eq_commaJoined (l : List String) :
    String.intercalate ", " l = commaJoined l := by
  cases l with
  | nil => rfl
  | cons x xs =>
    show String.intercalate.go x ", " xs = _
    rw [intercalate_go_eq_commaTail, commaJoined_cons]

/-! ### Claim theorems for the Query Builder -/

/-- C6: For every pair of symbols and every kind not in {Full Comparison,
Price Analysis, Fundamentals, News}, `generate_query` returns exactly the same
string as for kind "Full Comparison" (the dictionary-lookup default). -/
theorem c6_generate_query_default (stock1 stock2 kind : String)
    (h1 : kind ≠ "Full Comparison") (h2 : kind ≠ "Price Analysis")
    (h3 : kind ≠ "Fundamentals") (h4 : kind ≠ "News") :
    generate_query stock1 stock2 kind = generate_query stock1 stock2 "Full Comparison" := by
  simp [generate_query, h1, h2, h3, h4]

/-- Witness for C6 at the unrecognized kind "Momentum". -/
theorem c6_generate_query_default_witness :
    generate_query "AAPL" "MSFT" "Momentum" = generate_query "AAPL" "MSFT" "Full Comparison" :=
  c6_generate_query_default "AAPL" "MSFT" "Momentum"
    (by decide) (by decide) (by decide) (by decide)

/-- C7: `single_stock_query "GOOGL" ["Price Trends", "Recent News"]` is exactly
"Analyze GOOGL focusing on Price Trends, Recent News", and in general the
result is the symbol followed by the metric labels comma-joined in the
caller's supplied order (`commaJoined`, written from the spec's words). -/
theorem c7_single_stock_query_order :
    single_stock_query "GOOGL" ["Price Trends", "Recent News"] =
      "Analyze GOOGL focusing on Price Trends, Recent News" ∧
    ∀ (symbol : String) (metrics : List String),
      single_stock_query symbol metrics =
        "Analyze " ++ symbol ++ " focusing on " ++ commaJoined metrics := by
  refine ⟨by decide, ?_⟩
  intro symbol metrics
  simp [single_stock_query, intercalate_eq_commaJoined]

set_option maxRecDepth 40000 in
/-- C8: the "Price Analysis" comparison query for AAPL and MSFT contains both
symbols and does not contain the word "fundamental". -/
theorem c8_price_analysis_query_contents :
    ("AAPL".toList <:+: (generate_query "AAPL" "MSFT" "Price Analysis").toList) ∧
    ("MSFT".toList <:+: (generate_query "AAPL" "MSFT" "Price Analysis").toList) ∧
    ¬ ("fundamental".toList <:+: (generate_query "AAPL" "MSFT" "Price Analysis").toList) := by
  decide

/-- C9: for every symbol, the single-stock query built from an empty metrics
list is the template with a trailing "focusing on " and nothing after it. -/
theorem c9_single_stock_query_empty_metrics (symbol : String) :
    single_stock_query symbol [] = "Analyze " ++ symbol ++ " focusing on " := by
  simp [single_stock_query, String.intercalate]

/-! ### Concrete sessions and inputs used by counterexamples and witnesses -/

/-- A fresh session: neither session-state key exists yet. -/
def freshSession : SessionState :=
  { api_key_verified := none, assistant := none }

/-- A verified session holding a constructed assistant handle. -/
def verifiedSession : SessionState :=
  { api_key_verified := some true, assistant := some (some { assistantId := 7 }) }

/-! ### C2: state after a failed verify -/

/-- C2 counterexample: starting from a verified session that stores handle 7,
a failed verify (the constructor raises) leaves the verified flag false, yet
the previously stored handle 7 is still in the session state: the stored slot
is neither reset to `None` nor removed, so the claim's "any previously stored
assistant handle has been cleared" is false at this concrete input. -/
theorem c2_counterexample :
    (verify_api_key verifiedSession "bad-key"
        (fun _ => ConstructResult.raises)).state.api_key_verified = some false ∧
    (verify_api_key verifiedSession "bad-key"
        (fun _ => ConstructResult.raises)).state.assistant =
      some (some { assistantId := 7 }) ∧
    ¬ ((verify_api_key verifiedSession "bad-key"
          (fun _ => ConstructResult.raises)).state.assistant = some none ∨
       (verify_api_key verifiedSession "bad-key"
          (fun _ => ConstructResult.raises)).state.assistant = none) := by
  decide

/-- C2 (amended): after a failed verify, the session's verified flag is false,
and the previously stored assistant handle is left in the session state
unchanged (the except branch of `verify_api_key` never touches it). -/
theorem c2_failed_verify_state (s : SessionState) (key : String)
    (env : String → ConstructResult) (h : env key = ConstructResult.raises) :
    (verify_api_key s key env).state.api_key_verified = some false ∧
    (verify_api_key s key env).state.assistant = s.assistant := by
  simp [verify_api_key, h]

/-- Witness for C2 (amended) at the verified session and a raising env. -/
theorem c2_failed_verify_state_witness :
    (verify_api_key verifiedSession "bad-key"
        (fun _ => ConstructResult.raises)).state.api_key_verified = some false ∧
    (verify_api_key verifiedSession "bad-key"
        (fun _ => ConstructResult.raises)).state.assistant = verifiedSession.assistant :=
  c2_failed_verify_state verifiedSession "bad-key" (fun _ => ConstructResult.raises) rfl

/-! ### C3: empty versus whitespace-only secrets -/

/-- C3 counterexample: the single-space secret is whitespace-only, yet
submitting it passes the `if api_key:` truthiness guard and remote
construction is attempted — the construct call is in the trace. -/
theorem c3_counterexample :
    (" ".toList.all Char.isWhitespace = true) ∧
    (show_sidebar_form (initStockAnalysisApp freshSession) true " "
        (fun _ => ConstructResult.raises)).calls = [RemoteCall.construct " "] := by
  decide

/-- C3 (amended): submitting the empty secret surfaces the
"Please enter an API key." error without calling the verifier or attempting
construction; every non-empty secret — including whitespace-only ones — is
passed to the verifier, which always attempts remote construction. -/
theorem c3_empty_rejected_whitespace_constructed (s : SessionState) (key : String)
    (env : String → ConstructResult) (h : key ≠ "") :
    (show_sidebar_form s true "" env =
      { state := s, calls := [], msg := SidebarMsg.enterKeyMsg }) ∧
    (show_sidebar_form s true key env).calls = [RemoteCall.construct key] := by
  constructor
  · simp [show_sidebar_form]
  · cases hc : env key <;> simp [show_sidebar_form, verify_api_key, h, hc]

/-- Witness for C3 (amended) at the whitespace-only secret " ". -/
theorem c3_empty_rejected_whitespace_constructed_witness :
    (show_sidebar_form (initStockAnalysisApp freshSession) true ""
        (fun _ => ConstructResult.raises) =
      { state := initStockAnalysisApp freshSession, calls := [],
        msg := SidebarMsg.enterKeyMsg }) ∧
    (show_sidebar_form (initStockAnalysisApp freshSession) true " "
        (fun _ => ConstructResult.raises)).calls = [RemoteCall.construct " "] :=
  c3_empty_rejected_whitespace_constructed (initStockAnalysisApp freshSession) " "
    (fun _ => ConstructResult.raises) (by decide)

/-! ### C4: dispatch with an absent assistant handle -/

/-- C4 counterexample: on a fresh session (stored assistant is `None`), the
comparison handler with both symbols filled and the button clicked raises an
uncaught `AttributeError` — it does not return a handled
`DispatchError::Unbound` result — although indeed no remote call is made. -/
theorem c4_counterexample :
    handle_stock_comparison (initStockAnalysisApp freshSession) "AAPL" "MSFT" "News" true
        (fun _ => RunBehavior.ok "text") =
      { outcome := HandlerOutcome.raised PyException.attributeError, calls := [] } := by
  decide

/-- C4 (amended): when the session holds no assistant handle (the key is
absent or stores `None`), a dispatch attempt in either analysis tab makes no
call to the remote collaborator, but it fails by raising an uncaught
`AttributeError` rather than returning `DispatchError::Unbound`. -/
theorem c4_absent_handle_dispatch (s : SessionState)
    (h : s.assistant = none ∨ s.assistant = some none) :
    (∀ (stock1 stock2 kind : String) (env : String → RunBehavior),
      stock1 ≠ "" → stock2 ≠ "" →
      handle_stock_comparison s stock1 stock2 kind true env =
        { outcome := HandlerOutcome.raised PyException.attributeError, calls := [] }) ∧
    (∀ (stock : String) (metrics : List String) (env : String → RunBehavior),
      stock ≠ "" →
      handle_single_stock s stock metrics true env =
        { outcome := HandlerOutcome.raised PyException.attributeError, calls := [] }) := by
  constructor
  · intro stock1 stock2 kind env h1 h2
    rcases h with h | h <;>
      simp [handle_stock_comparison, dispatchAssistantRun, h1, h2, h]
  · intro stock metrics env h1
    rcases h with h | h <;>
      simp [handle_single_stock, dispatchAssistantRun, h1, h]

/-- Witness for C4 (amended) on the fresh session after init. -/
theorem c4_absent_handle_dispatch_witness :
    handle_stock_comparison (initStockAnalysisApp freshSession) "AAPL" "MSFT" "Full Comparison"
        true (fun _ => RunBehavior.raises) =
      { outcome := HandlerOutcome.raised PyException.attributeError, calls := [] } :=
  (c4_absent_handle_dispatch (initStockAnalysisApp freshSession) (Or.inr (by decide))).1
    "AAPL" "MSFT" "Full Comparison" (fun _ => RunBehavior.raises) (by decide) (by decide)

/-! ### C5: which components catch remote failures -/

/-- Inputs that click "Generate Analysis" on the comparison tab without
submitting the sidebar form. -/
def compareClickInputs : RunInputs :=
  { submitted := false, api_key := "", stock1 := "AAPL", stock2 := "MSFT",
    analysis_type := "News", generateClicked := true,
    stock := "", metrics := [], analyzeClicked := false }

/-- An environment whose assistant constructor and `run` call both raise. -/
def raisingEnv : Env :=
  { createAssistant := fun _ => ConstructResult.raises,
    assistantRunBehavior := fun _ => RunBehavior.raises }

/-- An environment whose assistant constructor and `run` call both succeed. -/
def okEnv : Env :=
  { createAssistant := fun _ => ConstructResult.ok { assistantId := 7 },
    assistantRunBehavior := fun _ => RunBehavior.ok "analysis text" }

/-- C5 counterexample: on a verified session with a stored handle, clicking
"Generate Analysis" while the remote `assistant.run` raises makes the whole
rendering pass end with an uncaught exception — the failure of the remote
collaborator escapes to the Presentation Shell instead of being converted to
a `DispatchError`. -/
theorem c5_counterexample :
    (run verifiedSession compareClickInputs raisingEnv).result =
      RunResult.uncaught PyException.remoteError := by
  decide

/-- C5 (amended): the Credential Verifier catches every failure of the remote
constructor and converts it to a `False` return (nothing escapes), but the
Analysis Dispatcher does not catch failures of `assistant.run`: whenever a
comparison dispatch reaches the remote call and the call raises, the
exception escapes uncaught from the rendering pass. -/
theorem c5_verifier_catches_dispatcher_escapes :
    (∀ (s : SessionState) (key : String) (env : String → ConstructResult),
      env key = ConstructResult.raises → (verify_api_key s key env).ret = false) ∧
    (∀ (s : SessionState) (i : RunInputs) (env : Env) (a : Assistant),
      i.submitted = false → s.api_key_verified = some true →
      s.assistant = some (some a) →
      i.stock1 ≠ "" → i.stock2 ≠ "" → i.generateClicked = true →
      env.assistantRunBehavior (generate_query i.stock1 i.stock2 i.analysis_type) =
        RunBehavior.raises →
      (run s i env).result = RunResult.uncaught PyException.remoteError) := by
  constructor
  · intro s key env h
    simp [verify_api_key, h]
  · intro s i env a hsub hv ha h1 h2 hclick hraise
    simp [run, show_sidebar_form, hsub, hv, show_main_content,
      handle_stock_comparison, dispatchAssistantRun, h1, h2, hclick, ha, hraise]

/-- Witness for C5 (amended): both conjuncts at concrete inputs. -/
theorem c5_verifier_catches_dispatcher_escapes_witness :
    (verify_api_key verifiedSession "bad" (fun _ => ConstructResult.raises)).ret = false ∧
    (run verifiedSession compareClickInputs raisingEnv).result =
      RunResult.uncaught PyException.remoteError :=
  ⟨c5_verifier_catches_dispatcher_escapes.1 verifiedSession "bad"
      (fun _ => ConstructResult.raises) rfl,
    c5_verifier_catches_dispatcher_escapes.2 verifiedSession compareClickInputs raisingEnv
      { assistantId := 7 } rfl rfl rfl (by decide) (by decide) rfl rfl⟩

/-! ### C1: dispatch happens only in a verified session -/

theorem assistantRun_not_in_sidebar_calls (s : SessionState) (submitted : Bool)
    (key : String) (env : String → ConstructResult) (q : String) :
    RemoteCall.assistantRun q ∉ (show_sidebar_form s submitted key env).calls := by
  cases submitted with
  | false => simp [show_sidebar_form]
  | true =>
    by_cases hk : key = ""
    · simp [show_sidebar_form, hk]
    · cases hc : env key <;>
        simp [show_sidebar_form, verify_api_key, hk, hc]

theorem run_calls_of_not_verified (s : SessionState) (i : RunInputs) (env : Env)
    (hv : (show_sidebar_form s i.submitted i.api_key env.createAssistant).state.api_key_verified
      ≠ some true) :
    (run s i env).calls =
      (show_sidebar_form s i.submitted i.api_key env.createAssistant).calls := by
  unfold run
  cases h : (show_sidebar_form s i.submitted i.api_key env.createAssistant).state.api_key_verified with
  | none => simp [h]
  | some b =>
    cases b with
    | false => simp [h]
    | true => exact absurd h hv

/-- C1: whenever a rendering pass makes an `assistant.run` call (in either
analysis tab), the session's verified flag was true at dispatch time (i.e. in
the state left by the sidebar form, which is the state the main content reads);
contrapositively, an unverified session never reaches any `assistant.run`
call — only the warning branch runs. -/
theorem c1_dispatch_only_when_verified (s : SessionState) (i : RunInputs) (env : Env)
    (q : String)
    (h : RemoteCall.assistantRun q ∈ (run s i env).calls) :
    (show_sidebar_form s i.submitted i.api_key env.createAssistant).state.api_key_verified
      = some true := by
  by_cases hv : (show_sidebar_form s i.submitted i.api_key env.createAssistant).state.api_key_verified = some true
  · exact hv
  · rw [run_calls_of_not_verified s i env hv] at h
    exact absurd h (assistantRun_not_in_sidebar_calls s i.submitted i.api_key env.createAssistant q)

/-- Witness for C1: a concrete verified pass that does dispatch. -/
theorem c1_dispatch_only_when_verified_witness :
    (show_sidebar_form verifiedSession compareClickInputs.submitted compareClickInputs.api_key
        okEnv.createAssistant).state.api_key_verified = some true :=
  c1_dispatch_only_when_verified verifiedSession compareClickInputs okEnv
    "Compare recent news and market sentiment for AAPL and MSFT." (by decide)

/-! ### C10: verified sessions always hold a handle -/

/-- The session invariant: whenever the verified flag is true, the session
holds a constructed assistant handle (the stored value is not `None`). -/
def sessionInv (s : SessionState) : Prop :=
  s.api_key_verified = some true → ∃ a, s.assistant = some (some a)

/-- C10: the invariant "verified implies a constructed handle is stored" is
established by the initial session setup from a fresh session, and preserved
by the init of any invariant-satisfying session and by every verify
(successful or failed). -/
theorem c10_invariant_preserved :
    sessionInv (initStockAnalysisApp freshSession) ∧
    (∀ s : SessionState, sessionInv s → sessionInv (initStockAnalysisApp s)) ∧
    (∀ (s : SessionState) (key : String) (env : String → ConstructResult),
      sessionInv s → sessionInv (verify_api_key s key env).state) := by
  refine ⟨?_, ?_, ?_⟩
  · intro h
    simp [initStockAnalysisApp, freshSession] at h
  · intro s hs
    unfold sessionInv initStockAnalysisApp
    cases hv : s.api_key_verified with
    | none => cases ha : s.assistant <;> simp [hv, ha]
    | some b =>
      cases b with
      | false => cases ha : s.assistant <;> simp [hv, ha]
      | true =>
        obtain ⟨a, ha⟩ := hs hv
        simp [hv, ha]
  · intro s key env _hs
    unfold sessionInv verify_api_key
    cases hc : env key with
    | ok a => simp
    | raises => simp

/-- Witness for C10: the invariant after a successful verify on the freshly
initialized session. -/
theorem c10_invariant_preserved_witness :
    sessionInv (verify_api_key (initStockAnalysisApp freshSession) "key"
      (fun _ => ConstructResult.ok { assistantId := 3 })).state :=
  c10_invariant_preserved.2.2 (initStockAnalysisApp freshSession) "key"
    (fun _ => ConstructResult.ok { assistantId := 3 })
    (by intro h; simp [initStockAnalysisApp, freshSession] at h)

end FinancialAgent
